import Mathlib

/-!
Verification of the etcd coordination client of the Nextcloud Spreed
signaling server (`etcd_client.go`) and of the reloadable-credentials wait
helpers (`grpc_common_test.go`), via a shallow embedding in Lean 4.

External effects (SRV discovery, TLS-configuration building, coordination
client construction, `Sync` outcomes, watch-stream responses) are modelled
by explicit oracles handed to the embedded functions, so every embedded
function is a pure, executable translation of the corresponding Go code.
Side effects that matter for the claims (closing and storing clients,
taking the listener lock, dispatching notifications) are recorded in an
explicit event trace.
-/

deriving instance DecidableEq for Except

namespace Signaling

/-- An opaque TLS client configuration handle, produced by
`transport.TLSInfo.ClientConfig()`. -/
structure TLSConfig where
  id : Nat
  deriving DecidableEq, Repr

/-- The `clientv3.Config` value built inside `load`: the resolved endpoint
list plus the optional TLS configuration (`cfg.TLS`). The dial timeout is a
fixed constant and does not affect any claim. -/
structure EtcdCfg where
  endpoints : List String
  tls : Option TLSConfig
  deriving DecidableEq, Repr

/-- A live `clientv3.Client` handle: an identity plus the configuration it
was created from.  Its TLS is enabled exactly when `cfg.tls` is set. -/
structure GoEtcdClient where
  id : Nat
  cfg : EtcdCfg
  deriving DecidableEq, Repr

/-- A `goconf.ConfigFile`: a total map from (section, option) to the string
value, with `""` meaning the option is unset (the Go code only ever compares
the fetched value against `""`). -/
def ConfigFile : Type := String → String → String

/-- Oracle for the external effects performed by `load`:
`srvResult domain service` is the outcome of
`srv.GetClient("etcd-client", domain, service)` (the discovered endpoint
list or an error); `tlsResult certFile keyFile caFile` is the outcome of
`transport.TLSInfo{...}.ClientConfig()`; `newClient cfg` is the outcome of
`clientv3.New(cfg)`, returning the identity of the freshly created client. -/
structure LoadEnv where
  srvResult : String → String → Except String (List String)
  tlsResult : String → String → String → Except String TLSConfig
  newClient : EtcdCfg → Except String Nat

/-- Observable actions of the embedded `EtcdClient` code, in program order. -/
inductive Event where
  | log (msg : String)
  | closeClient (id : Nat)
  | storeClient (id : Nat)
  | lockAcquire
  | lockRelease
  | notifySync (listener : Nat)
  | notifyAsync (listener : Nat)
  deriving DecidableEq, Repr

/-- The mutable state of an `EtcdClient`: the compatibility section name,
the atomic client slot (`client atomic.Value`; `none` = never stored), and
the registered listener set (map keys, identified by `Nat`). -/
structure EtcdClientState where
  compatSection : String
  client : Option GoEtcdClient
  listeners : List Nat
  deriving DecidableEq, Repr

/-- Go's `unicode.IsSpace` on the characters relevant to configuration
values: the ASCII whitespace characters plus NEL and NBSP (wider Unicode
space classes never appear in endpoint lists). -/
def goIsSpace (c : Char) : Bool :=
  c = ' ' || c = '\t' || c = '\n' || c = Char.ofNat 11 || c = Char.ofNat 12 || c = '\r' ||
    c = Char.ofNat 0x85 || c = Char.ofNat 0xA0

/-- Helper for `goSplit`: split a character list around every occurrence of
`sep`, threading the characters of the current field in reverse. -/
def splitAux (sep : Char) : List Char → List Char → List (List Char)
  | [], acc => [acc.reverse]
  | c :: rest, acc =>
    if c = sep then acc.reverse :: splitAux sep rest [] else splitAux sep rest (c :: acc)

/-- Go's `strings.Split(s, sep)` for a one-character separator. -/
def goSplit (s : String) (sep : Char) : List String :=
  (splitAux sep s.data []).map List.asString

/-- Go's `strings.TrimSpace`: drop leading and trailing whitespace. -/
def goTrim (s : String) : String :=
  (((s.data.dropWhile goIsSpace).reverse.dropWhile goIsSpace).reverse).asString

/-- `getConfigStringWithFallback`: read an option from section `"etcd"`,
falling back to the deprecated compatibility section when the primary value
is empty and a compatibility section is configured. -/
def getConfigStringWithFallback (compatSection : String) (config : ConfigFile)
    (option : String) : String :=
  let value := config "etcd" option
  if value = "" ∧ compatSection ≠ "" then config compatSection option else value

/-- `getEtcdClient`: read the atomic client slot (`c.client.Load()`),
returning `none` when nothing was ever stored. -/
def getEtcdClient (s : EtcdClientState) : Option GoEtcdClient :=
  s.client

/-- `IsConfigured`: whether a client is currently installed. -/
def IsConfigured (s : EtcdClientState) : Bool :=
  (getEtcdClient s).isSome

/-- `notifyListeners`: under `c.mu`, invoke `EtcdClientCreated`
synchronously on every registered listener. -/
def notifyListeners (s : EtcdClientState) : List Event :=
  [Event.lockAcquire] ++ s.listeners.map Event.notifySync ++ [Event.lockRelease]

/-- The endpoint-resolution block of `load` (lines 81–99): an explicit
non-empty `"endpoints"` option is split on commas, trimmed and filtered for
empties; otherwise a non-empty `"discoverysrv"` option triggers one SRV
lookup (whose failure is fatal only when `ignoreErrors` is false); otherwise
the endpoint list stays empty. -/
def resolveEndpoints (compatSection : String) (config : ConfigFile) (env : LoadEnv)
    (ignoreErrors : Bool) : Except String (List String) :=
  let endpointsString := getConfigStringWithFallback compatSection config "endpoints"
  if endpointsString ≠ "" then
    .ok (((goSplit endpointsString ',').map goTrim).filter (· ≠ ""))
  else
    let discoverySrv := getConfigStringWithFallback compatSection config "discoverysrv"
    if discoverySrv ≠ "" then
      let discoveryService := getConfigStringWithFallback compatSection config "discoveryservice"
      match env.srvResult discoverySrv discoveryService with
      | .error e =>
        if !ignoreErrors then
          .error ("Could not discover etcd endpoints for " ++ discoverySrv ++ ": " ++ e)
        else
          .ok []
      | .ok clients => .ok clients
    else
      .ok []

/-- The TLS block of `load` (lines 115–134): when all of `clientkey`,
`clientcert` and `cacert` are non-empty, build the TLS client configuration
from them; a build failure is fatal only when `ignoreErrors` is false,
otherwise it is logged and TLS stays disabled. -/
def buildTls (compatSection : String) (config : ConfigFile) (env : LoadEnv)
    (ignoreErrors : Bool) : Except String (Option TLSConfig) :=
  let clientKey := getConfigStringWithFallback compatSection config "clientkey"
  let clientCert := getConfigStringWithFallback compatSection config "clientcert"
  let caCert := getConfigStringWithFallback compatSection config "cacert"
  if clientKey ≠ "" ∧ clientCert ≠ "" ∧ caCert ≠ "" then
    match env.tlsResult clientCert clientKey caCert with
    | .error e =>
      if !ignoreErrors then
        .error ("Could not setup etcd TLS configuration: " ++ e)
      else
        .ok none
    | .ok tlsConfig => .ok (some tlsConfig)
  else
    .ok none

/-- `load` (lines 80–155): resolve endpoints, optionally build TLS, create a
new coordination client, close the previous client, store the new client in
the atomic slot and notify listeners.  Returns the updated state and the
event trace, or the propagated error when `ignoreErrors` is false. -/
def load (env : LoadEnv) (config : ConfigFile) (ignoreErrors : Bool)
    (s : EtcdClientState) : Except String (EtcdClientState × List Event) :=
  match resolveEndpoints s.compatSection config env ignoreErrors with
  | .error e => .error e
  | .ok endpoints =>
    if endpoints.isEmpty then
      .ok (s, if ignoreErrors then [Event.log "No etcd endpoints configured, not changing client"] else [])
    else
      match buildTls s.compatSection config env ignoreErrors with
      | .error e => .error e
      | .ok tlsOpt =>
        let cfg : EtcdCfg := { endpoints := endpoints, tls := tlsOpt }
        match env.newClient cfg with
        | .error e =>
          if !ignoreErrors then
            .error e
          else
            .ok (s, [Event.log "Could not create new client from etcd endpoints"])
        | .ok id =>
          let newClient : GoEtcdClient := { id := id, cfg := cfg }
          let closeEvents : List Event :=
            match getEtcdClient s with
            | some prev => [Event.closeClient prev.id]
            | none => []
          let s' : EtcdClientState := { s with client := some newClient }
          .ok (s', closeEvents ++ [Event.storeClient id] ++ notifyListeners s')

/-- `NewEtcdClient`: start from an empty state and run `load` with error
propagation enabled. -/
def NewEtcdClient (env : LoadEnv) (config : ConfigFile) (compatSection : String) :
    Except String (EtcdClientState × List Event) :=
  load env config false { compatSection := compatSection, client := none, listeners := [] }

/-- `AddListener`: under `c.mu`, insert the listener into the set and, when a
client is already installed, dispatch one `EtcdClientCreated` notification
asynchronously (`go listener.EtcdClientCreated(c)`). -/
def AddListener (s : EtcdClientState) (l : Nat) : EtcdClientState × List Event :=
  let listeners := if l ∈ s.listeners then s.listeners else s.listeners ++ [l]
  ({ s with listeners := listeners },
    [Event.lockAcquire]
      ++ (if (getEtcdClient s).isSome then [Event.notifyAsync l] else [])
      ++ [Event.lockRelease])

/-- `RemoveListener`: under `c.mu`, delete the listener from the set. -/
def RemoveListener (s : EtcdClientState) (l : Nat) : EtcdClientState × List Event :=
  ({ s with listeners := s.listeners.filter (· ≠ l) },
    [Event.lockAcquire, Event.lockRelease])

/-- Outcome of a Go call that may dereference a nil `*clientv3.Client`
pointer: either the ordinary result, or the runtime panic caused by calling
a method on the nil handle. -/
inductive GoResult (α : Type) where
  | ok (a : α)
  | nilDeref
  deriving DecidableEq, Repr

/-- The body of `(*clientv3.Client).Get` as seen from this module: a
passthrough to the store, whose response is supplied by the `resp` oracle.
Invoking it on the `none` handle is a nil-pointer dereference. -/
def clientGet (c : Option GoEtcdClient) (resp : Except String (List (String × String))) :
    GoResult (Except String (List (String × String))) :=
  match c with
  | none => .nilDeref
  | some _ => .ok resp

/-- `Get` (line 238): direct passthrough to the current client's read. -/
def Get (s : EtcdClientState) (resp : Except String (List (String × String))) :
    GoResult (Except String (List (String × String))) :=
  clientGet (getEtcdClient s) resp

/-- `Close` (lines 157–164): close the current client when one is installed
(returning the outcome `closeResult` of `client.Close()`), else return nil. -/
def Close (s : EtcdClientState) (closeResult : Except String Unit) :
    Except String Unit :=
  match getEtcdClient s with
  | some _ => closeResult
  | none => .ok ()

/-- `syncClient` (lines 179–184): call `Sync` on the current client with a
one-second timeout; the outcome is supplied by the `syncResult` oracle.
Invoking it with no installed client dereferences the nil handle. -/
def syncClient (s : EtcdClientState) (syncResult : Except String Unit) :
    GoResult (Except String Unit) :=
  match getEtcdClient s with
  | none => .nilDeref
  | some _ => .ok syncResult

/-- One step of the backoff update in `WaitForConnection`:
`waitDelay = waitDelay * 2; if waitDelay > maxWaitDelay { waitDelay = maxWaitDelay }`. -/
def capDouble (maxWaitDelay waitDelay : Nat) : Nat :=
  let d := waitDelay * 2
  if d > maxWaitDelay then maxWaitDelay else d

/-- The retry loop of `WaitForConnection`, driven by the list of successive
`syncClient` outcomes (`.error` = timeout or sync failure, `.ok` = synced).
Returns the list of delays slept before the first success, or `none` when
the outcome list is exhausted without a success (the Go loop would still be
running). -/
def waitForConnectionLoop (maxWaitDelay : Nat) :
    List (Except String Unit) → Nat → Option (List Nat)
  | [], _ => none
  | outcome :: rest, waitDelay =>
    match outcome with
    | .ok _ => some []
    | .error _ =>
      match waitForConnectionLoop maxWaitDelay rest (capDouble maxWaitDelay waitDelay) with
      | none => none
      | some delays => some (waitDelay :: delays)

/-- `WaitForConnection` (lines 215–236): repeatedly call `syncClient`,
sleeping a doubling, capped delay after each failure, until the first
success.  Each iteration (and the final endpoint logging) dereferences the
current client handle, so with no installed client the first iteration
panics. -/
def WaitForConnection (initialWaitDelay maxWaitDelay : Nat) (s : EtcdClientState)
    (outcomes : List (Except String Unit)) : GoResult (Option (List Nat)) :=
  match getEtcdClient s with
  | none => .nilDeref
  | some _ => .ok (waitForConnectionLoop maxWaitDelay outcomes initialWaitDelay)

/-- Type of an event in a watch response, `mvccpb.Event_EventType`: `PUT`,
`DELETE`, or any other (unrecognized) value. -/
inductive WatchEventType where
  | put
  | delete
  | other (code : Nat)
  deriving DecidableEq, Repr

/-- One event of a watch response: its type and its key/value record. -/
structure WatchEvent where
  type : WatchEventType
  key : String
  value : String
  deriving DecidableEq, Repr

/-- One `clientv3.WatchResponse`: a possible stream-level error
(`response.Err()`) and the carried event list. -/
structure WatchResponse where
  err : Option String
  events : List WatchEvent
  deriving DecidableEq, Repr

/-- A call made on the `EtcdClientWatcher` during `Watch`. -/
inductive WatchCall where
  | watchCreated (key : String)
  | keyUpdated (key : String) (value : String)
  | keyDeleted (key : String)
  deriving DecidableEq, Repr

/-- The `switch ev.Type` dispatch inside `Watch` (lines 252–261): a Put
event invokes `EtcdKeyUpdated` with key and value, a Delete event invokes
`EtcdKeyDeleted` with the key only, any other type is logged and dropped. -/
def dispatchEvent (ev : WatchEvent) : List WatchCall :=
  match ev.type with
  | .put => [WatchCall.keyUpdated ev.key ev.value]
  | .delete => [WatchCall.keyDeleted ev.key]
  | .other _ => []

/-- The response-consuming loop of `Watch` (lines 247–262): for each
response, first check the stream-level error and return it at once; else
dispatch every event of the response in order; when the channel closes,
return nil. -/
def watchLoop : List WatchResponse → List WatchCall × Option String
  | [] => ([], none)
  | response :: rest =>
    match response.err with
    | some e => ([], some e)
    | none =>
      let calls := (response.events.map dispatchEvent).flatten
      let (more, result) := watchLoop rest
      (calls ++ more, result)

/-- The body of `Watch` after the stream is open: fire `EtcdWatchCreated`
once, then consume the stream. -/
def watchDispatch (key : String) (responses : List WatchResponse) :
    List WatchCall × Option String :=
  let (calls, result) := watchLoop responses
  (WatchCall.watchCreated key :: calls, result)

/-- `Watch` (lines 242–265): open a leader-required watch stream on the
current client (a nil-pointer dereference when no client is installed),
then signal creation and relay the stream. -/
def Watch (s : EtcdClientState) (key : String) (responses : List WatchResponse) :
    GoResult (List WatchCall × Option String) :=
  match getEtcdClient s with
  | none => .nilDeref
  | some _ => .ok (watchDispatch key responses)

/-- An abstract caller-supplied `context.Context` token, passed through to
the loaders' wait operations. -/
abbrev Ctx : Type := Nat

/-- Modelled from the spec: the `CertificateLoader` referenced by
`reloadableCredentials` is not part of the available source; per the spec it
owns the current certificate/key pair and offers `WaitForReload(ctx)`,
blocking until its reload generation advances or the context is canceled.
We keep its wait behaviour abstract as a function of the caller's context. -/
structure CertificateLoader where
  waitForReload : Ctx → Except String Unit

/-- Modelled from the spec: the `CertPoolLoader` analogue for the trusted CA
pool, with the same abstract `WaitForReload(ctx)` behaviour. -/
structure CertPoolLoader where
  waitForReload : Ctx → Except String Unit

/-- The `reloadableCredentials` fields used by the wait helpers: an optional
certificate loader and an optional certificate pool. -/
structure ReloadableCredentials where
  loader : Option CertificateLoader
  pool : Option CertPoolLoader

/-- `WaitForCertificateReload` (grpc_common_test.go lines 40–46): fail with
the not-configured error when no certificate loader is attached, else
delegate to the loader's `WaitForReload` with the caller's context. -/
def WaitForCertificateReload (c : ReloadableCredentials) (ctx : Ctx) :
    Except String Unit :=
  match c.loader with
  | none => .error "no certificate loaded"
  | some loader => loader.waitForReload ctx

/-- `WaitForCertPoolReload` (grpc_common_test.go lines 48–54): fail with the
not-configured error when no certificate pool is attached, else delegate to
the pool's `WaitForReload` with the caller's context. -/
def WaitForCertPoolReload (c : ReloadableCredentials) (ctx : Ctx) :
    Except String Unit :=
  match c.pool with
  | none => .error "no certificate pool loaded"
  | some pool => pool.waitForReload ctx

/-- A trace scanner used to state lock-discipline properties: does some
synchronous listener notification happen while the listener lock is held
(`depth > 0`)? -/
def notifiesUnderLock : List Event → Nat → Bool
  | [], _ => false
  | Event.lockAcquire :: rest, depth => notifiesUnderLock rest (depth + 1)
  | Event.lockRelease :: rest, depth => notifiesUnderLock rest (depth - 1)
  | Event.notifySync _ :: rest, depth => depth > 0 || notifiesUnderLock rest depth
  | _ :: rest, depth => notifiesUnderLock rest depth

/-- A trace scanner for publish/close ordering: is every `closeClient` event
preceded (strictly) by some `storeClient` event in the trace?  Vacuously
true when the trace closes nothing. -/
def closesOnlyAfterStore : List Event → Bool → Bool
  | [], _ => true
  | Event.storeClient _ :: rest, _ => closesOnlyAfterStore rest true
  | Event.closeClient _ :: rest, seenStore => seenStore && closesOnlyAfterStore rest seenStore
  | _ :: rest, seenStore => closesOnlyAfterStore rest seenStore

/-! Concrete fixtures used by the witnesses and counterexamples. -/

/-- A configuration with every option unset. -/
def emptyConfig : ConfigFile := fun _ _ => ""

/-- A configuration using SRV discovery only. -/
def srvConfig : ConfigFile := fun sec opt =>
  if sec = "etcd" ∧ opt = "discoverysrv" then "etcd.example.com" else ""

/-- A configuration using SRV discovery plus a full TLS file triple. -/
def srvTlsConfig : ConfigFile := fun sec opt =>
  if sec = "etcd" then
    if opt = "discoverysrv" then "etcd.example.com"
    else if opt = "clientkey" then "client.key"
    else if opt = "clientcert" then "client.crt"
    else if opt = "cacert" then "ca.crt"
    else ""
  else ""

/-- A configuration with an explicit endpoint list (untrimmed, with an
empty entry) and a discovery domain that must be ignored. -/
def endpointsConfig : ConfigFile := fun sec opt =>
  if sec = "etcd" ∧ opt = "endpoints" then " 10.0.0.1:2379 , ,10.0.0.2:2379"
  else if sec = "etcd" ∧ opt = "discoverysrv" then "etcd.example.com"
  else ""

/-- An environment where discovery, TLS building and client creation all
succeed. -/
def envOk : LoadEnv where
  srvResult := fun _ _ => .ok ["10.0.0.1:2379"]
  tlsResult := fun _ _ _ => .ok ⟨0⟩
  newClient := fun cfg => .ok (if cfg.tls.isSome then 2 else 1)

/-- `envOk` with a failing TLS-configuration build. -/
def envTlsFail : LoadEnv := { envOk with tlsResult := fun _ _ _ => .error "bad tls" }

/-- `envOk` with a failing SRV lookup. -/
def envSrvFail : LoadEnv := { envOk with srvResult := fun _ _ => .error "srv down" }

/-- `envOk` with a failing `clientv3.New`. -/
def envNewFail : LoadEnv := { envOk with newClient := fun _ => .error "dial failed" }

/-- A previously installed (non-TLS) client. -/
def clientA : GoEtcdClient := ⟨100, ⟨["old:2379"], none⟩⟩

/-- A state with `clientA` installed and one registered listener. -/
def stateWithClient : EtcdClientState := ⟨"", some clientA, [7]⟩

/-- A freshly constructed state: no client, no listeners. -/
def stateEmpty : EtcdClientState := ⟨"", none, []⟩

/-! Theorems settling the claims. -/

/-- Helper: `watchLoop` on an error-free response list dispatches every
event of every response in order and reports no error. -/
theorem watchLoop_all_ok (rs : List WatchResponse) (h : ∀ x ∈ rs, x.err = none) :
    watchLoop rs =
      ((rs.map (fun x => (x.events.map dispatchEvent).flatten)).flatten, none) := by
  induction rs with
  | nil => rfl
  | cons r rest ih =>
    have hr : r.err = none := h r (List.mem_cons_self r rest)
    have hrest : ∀ x ∈ rest, x.err = none := fun x hx => h x (List.mem_cons_of_mem r hx)
    simp [watchLoop, hr, ih hrest]

/-- Helper: `watchLoop` stops at the first response carrying a stream-level
error, dispatching only the events of the error-free responses before it. -/
theorem watchLoop_first_err (pre rest : List WatchResponse) (r : WatchResponse)
    (e : String) (hpre : ∀ x ∈ pre, x.err = none) (hr : r.err = some e) :
    watchLoop (pre ++ r :: rest) =
      ((pre.map (fun x => (x.events.map dispatchEvent).flatten)).flatten, some e) := by
  induction pre with
  | nil => simp [watchLoop, hr]
  | cons p ps ih =>
    have hp : p.err = none := hpre p (List.mem_cons_self p ps)
    have hps : ∀ x ∈ ps, x.err = none := fun x hx => hpre x (List.mem_cons_of_mem p hx)
    simp [watchLoop, hp, ih hps]

/-- Claim C2: `Watch` first fires `EtcdWatchCreated` once, then relays the
stream in order: a Put event invokes `EtcdKeyUpdated` with key and value, a
Delete event invokes `EtcdKeyDeleted` with the key only, an unrecognized
event type is dropped without terminating the stream, and a response with a
stream-level error makes `Watch` return that error at once with no further
dispatch. -/
theorem etcd_watch_relay (key : String) (responses pre rest : List WatchResponse)
    (r : WatchResponse) (e : String) :
    ((watchDispatch key responses).1.head? = some (WatchCall.watchCreated key))
    ∧ ((∀ x ∈ responses, x.err = none) →
        watchDispatch key responses =
          (WatchCall.watchCreated key ::
            (responses.map (fun x => (x.events.map dispatchEvent).flatten)).flatten,
           none))
    ∧ ((∀ x ∈ pre, x.err = none) → r.err = some e →
        watchDispatch key (pre ++ r :: rest) =
          (WatchCall.watchCreated key ::
            (pre.map (fun x => (x.events.map dispatchEvent).flatten)).flatten,
           some e))
    ∧ (∀ k v, dispatchEvent ⟨.put, k, v⟩ = [WatchCall.keyUpdated k v])
    ∧ (∀ k v, dispatchEvent ⟨.delete, k, v⟩ = [WatchCall.keyDeleted k])
    ∧ (∀ k v code, dispatchEvent ⟨.other code, k, v⟩ = []) := by
  refine ⟨?_, ?_, ?_, fun k v => rfl, fun k v => rfl, fun k v code => rfl⟩
  · simp [watchDispatch]
  · intro h
    simp [watchDispatch, watchLoop_all_ok responses h]
  · intro hpre hr
    simp [watchDispatch, watchLoop_first_err pre rest r e hpre hr]

/-- Witness for `etcd_watch_relay`: a Put, an unrecognized event and a
Delete are relayed in order; an error response after one good response
terminates the relay with that error and drops the rest. -/
theorem etcd_watch_relay_witness :
    watchDispatch "prefix.key"
        [⟨none, [⟨.put, "a", "1"⟩, ⟨.other 9, "b", "2"⟩]⟩, ⟨none, [⟨.delete, "a", ""⟩]⟩] =
      ([WatchCall.watchCreated "prefix.key", WatchCall.keyUpdated "a" "1",
        WatchCall.keyDeleted "a"], none)
    ∧ watchDispatch "prefix.key"
        ([⟨none, [⟨.put, "a", "1"⟩]⟩] ++
          ⟨some "leader lost", [⟨.put, "c", "3"⟩]⟩ :: [⟨none, [⟨.delete, "a", ""⟩]⟩]) =
      ([WatchCall.watchCreated "prefix.key", WatchCall.keyUpdated "a" "1"],
        some "leader lost") := by
  constructor
  · have h := (etcd_watch_relay "prefix.key"
      [⟨none, [⟨.put, "a", "1"⟩, ⟨.other 9, "b", "2"⟩]⟩, ⟨none, [⟨.delete, "a", ""⟩]⟩]
      [] [] ⟨none, []⟩ "").2.1 (by decide)
    exact h.trans (by decide)
  · have h := (etcd_watch_relay "prefix.key" []
      [⟨none, [⟨.put, "a", "1"⟩]⟩] [⟨none, [⟨.delete, "a", ""⟩]⟩]
      ⟨some "leader lost", [⟨.put, "c", "3"⟩]⟩ "leader lost").2.2.1
      (by decide) (by decide)
    exact h.trans (by decide)

/-- Claim C4: endpoint resolution priority in `load`: a non-empty
`endpoints` option is split on commas, trimmed and filtered for empties
(discovery is not consulted); otherwise a non-empty `discoverysrv` option
yields the endpoints of one SRV lookup with the optional `discoveryservice`
name; otherwise the endpoint list is empty and `load` creates no client and
leaves the state unchanged. -/
theorem etcd_resolve_endpoints_priority (compat : String) (config : ConfigFile)
    (env : LoadEnv) (ignoreErrors : Bool) :
    (getConfigStringWithFallback compat config "endpoints" ≠ "" →
      resolveEndpoints compat config env ignoreErrors =
        .ok (((goSplit (getConfigStringWithFallback compat config "endpoints") ',').map
          goTrim).filter (· ≠ "")))
    ∧ (getConfigStringWithFallback compat config "endpoints" = "" →
       getConfigStringWithFallback compat config "discoverysrv" ≠ "" →
       ∀ l, env.srvResult (getConfigStringWithFallback compat config "discoverysrv")
              (getConfigStringWithFallback compat config "discoveryservice") = .ok l →
        resolveEndpoints compat config env ignoreErrors = .ok l)
    ∧ (getConfigStringWithFallback compat config "endpoints" = "" →
       getConfigStringWithFallback compat config "discoverysrv" = "" →
        resolveEndpoints compat config env ignoreErrors = .ok [])
    ∧ (∀ s : EtcdClientState, s.compatSection = compat →
       resolveEndpoints compat config env ignoreErrors = .ok [] →
        load env config ignoreErrors s =
          .ok (s, if ignoreErrors then
            [Event.log "No etcd endpoints configured, not changing client"] else [])) := by
  refine ⟨?_, ?_, ?_, ?_⟩
  · intro h
    simp [resolveEndpoints, h]
  · intro h1 h2 l hsrv
    simp [resolveEndpoints, h1, h2, hsrv]
  · intro h1 h2
    simp [resolveEndpoints, h1, h2]
  · intro s hcompat hres
    subst hcompat
    simp [load, hres]

/-- Witness for `etcd_resolve_endpoints_priority`: the explicit list wins
over the configured discovery domain and is trimmed and filtered; with only
a discovery domain, the SRV result is used; with neither, resolution is
empty and `load` changes nothing. -/
theorem etcd_resolve_endpoints_priority_witness :
    resolveEndpoints "" endpointsConfig envOk true =
      .ok ["10.0.0.1:2379", "10.0.0.2:2379"]
    ∧ resolveEndpoints "" srvConfig envOk true = .ok ["10.0.0.1:2379"]
    ∧ resolveEndpoints "" emptyConfig envOk true = .ok []
    ∧ load envOk emptyConfig true stateWithClient =
        .ok (stateWithClient, [Event.log "No etcd endpoints configured, not changing client"]) := by
  have h := etcd_resolve_endpoints_priority "" endpointsConfig envOk true
  have h2 := etcd_resolve_endpoints_priority "" srvConfig envOk true
  have h3 := etcd_resolve_endpoints_priority "" emptyConfig envOk true
  refine ⟨(h.1 (by decide)).trans (by decide), ?_, ?_, ?_⟩
  · exact h2.2.1 (by decide) (by decide) _ (by decide)
  · exact h3.2.2.1 (by decide) (by decide)
  · exact h3.2.2.2 stateWithClient rfl (h3.2.2.1 (by decide) (by decide))

/-- Claim C1 as stated is false: in `load`, when a new client is created
while a previous one is installed, the previous client is closed *before*
the new one is stored.  At this concrete input (SRV-resolved endpoint, a
previous client with id 100, a successfully created client with id 1) the
trace closes client 100 strictly before storing client 1, so the
publish-then-close ordering asserted by the claim does not hold. -/
theorem etcd_load_close_before_store_cex :
    load envOk srvConfig true stateWithClient =
      .ok (⟨"", some ⟨1, ⟨["10.0.0.1:2379"], none⟩⟩, [7]⟩,
        [Event.closeClient 100, Event.storeClient 1,
         Event.lockAcquire, Event.notifySync 7, Event.lockRelease])
    ∧ closesOnlyAfterStore
        [Event.closeClient 100, Event.storeClient 1,
         Event.lockAcquire, Event.notifySync 7, Event.lockRelease] false = false := by
  constructor
  · rfl
  · rfl

/-- Claim C1 (corrected): in `EtcdClient.load`, when a new coordination
client is successfully created while a previous client is installed, the
previous client is closed immediately *before* the new client is stored in
the atomic client slot (close-then-publish ordering), and listener
notification follows the store. -/
theorem etcd_load_close_then_store (env : LoadEnv) (config : ConfigFile)
    (ignoreErrors : Bool) (s : EtcdClientState) (endpoints : List String)
    (tlsOpt : Option TLSConfig) (id : Nat) (prev : GoEtcdClient)
    (hres : resolveEndpoints s.compatSection config env ignoreErrors = .ok endpoints)
    (hne : endpoints ≠ [])
    (htls : buildTls s.compatSection config env ignoreErrors = .ok tlsOpt)
    (hnew : env.newClient ⟨endpoints, tlsOpt⟩ = .ok id)
    (hprev : s.client = some prev) :
    load env config ignoreErrors s =
      .ok ({ s with client := some ⟨id, ⟨endpoints, tlsOpt⟩⟩ },
        Event.closeClient prev.id :: Event.storeClient id ::
          notifyListeners { s with client := some ⟨id, ⟨endpoints, tlsOpt⟩⟩ }) := by
  unfold load
  rw [hres]
  cases endpoints with
  | nil => exact absurd rfl hne
  | cons ep eps =>
    simp only [List.isEmpty_cons, Bool.false_eq_true, if_false, htls, hnew,
      getEtcdClient, hprev]
    rfl

/-- Witness for `etcd_load_close_then_store` at the concrete fixture input. -/
theorem etcd_load_close_then_store_witness :
    load envOk srvConfig true stateWithClient =
      .ok ({ stateWithClient with client := some ⟨1, ⟨["10.0.0.1:2379"], none⟩⟩ },
        Event.closeClient clientA.id :: Event.storeClient 1 ::
          notifyListeners { stateWithClient with
            client := some ⟨1, ⟨["10.0.0.1:2379"], none⟩⟩ }) :=
  etcd_load_close_then_store envOk srvConfig true stateWithClient
    ["10.0.0.1:2379"] none 1 clientA (by rfl) (by decide) (by rfl) (by rfl) (by rfl)

/-- Helper: one backoff update on a capped delay yields the capped doubled
delay. -/
theorem capDouble_min (maxWaitDelay a : Nat) :
    capDouble maxWaitDelay (min a maxWaitDelay) = min (a * 2) maxWaitDelay := by
  simp only [capDouble]
  split <;> omega

/-- Helper: the retry loop of `WaitForConnection`, started at the capped
delay `min (initialWaitDelay * 2 ^ k) maxWaitDelay` and fed `errs.length`
failures then a success, sleeps exactly the capped doubling delays and
stops at the success. -/
theorem waitForConnectionLoop_backoff (maxWaitDelay initialWaitDelay : Nat)
    (errs : List String) :
    ∀ (k : Nat) (rest : List (Except String Unit)),
    waitForConnectionLoop maxWaitDelay (errs.map Except.error ++ .ok () :: rest)
        (min (initialWaitDelay * 2 ^ k) maxWaitDelay) =
      some ((List.range errs.length).map fun i =>
        min (initialWaitDelay * 2 ^ (k + i)) maxWaitDelay) := by
  induction errs with
  | nil =>
    intro k rest
    simp [waitForConnectionLoop]
  | cons e es ih =>
    intro k rest
    simp only [List.map_cons, List.cons_append, waitForConnectionLoop, List.append_eq]
    rw [capDouble_min, mul_assoc, ← pow_succ, ih (k + 1) rest]
    simp only [List.length_cons, List.range_succ_eq_map, List.map_cons, List.map_map,
      Nat.add_zero]
    have hfun : ∀ i : Nat, k + 1 + i = k + (i + 1) := fun i => by omega
    simp [Function.comp, Nat.succ_eq_add_one, hfun]

/-- Claim C5: `WaitForConnection` retries until the first successful sync:
fed `errs.length` failures then a success, it terminates at the success
regardless of how many failures preceded it or what would follow, sleeping
the doubling delay sequence that starts at the initial wait delay and is
capped at the maximum wait delay. -/
theorem etcd_wait_for_connection_backoff (initialWaitDelay maxWaitDelay : Nat)
    (hmax : initialWaitDelay ≤ maxWaitDelay) (s : EtcdClientState)
    (c : GoEtcdClient) (hc : s.client = some c) (errs : List String)
    (rest : List (Except String Unit)) :
    WaitForConnection initialWaitDelay maxWaitDelay s
        (errs.map Except.error ++ .ok () :: rest) =
      .ok (some ((List.range errs.length).map fun i =>
        min (initialWaitDelay * 2 ^ i) maxWaitDelay)) := by
  unfold WaitForConnection getEtcdClient
  rw [hc]
  have h := waitForConnectionLoop_backoff maxWaitDelay initialWaitDelay errs 0 rest
  rw [show min (initialWaitDelay * 2 ^ 0) maxWaitDelay = initialWaitDelay from by
    simpa using min_eq_left hmax] at h
  rw [h]
  simp

/-- Witness for `etcd_wait_for_connection_backoff`: five failures then a
success, with initial delay 1 and ceiling 8, sleep 1, 2, 4, 8, 8 and stop. -/
theorem etcd_wait_for_connection_backoff_witness :
    WaitForConnection 1 8 stateWithClient
        ((["t1", "t2", "t3", "t4", "t5"].map Except.error) ++ .ok () :: [.error "x"]) =
      .ok (some [1, 2, 4, 8, 8]) :=
  (etcd_wait_for_connection_backoff 1 8 (by decide) stateWithClient clientA rfl
    ["t1", "t2", "t3", "t4", "t5"] [.error "x"]).trans (by decide)

/-- Claim C3 as stated is false: `load` with `ignoreErrors = true` does log
and return nil on failures, but a TLS-configuration failure does *not*
leave the client slot unchanged: at this concrete input the TLS build fails,
the reload continues with TLS disabled, creates client 1 and replaces the
previously installed client 100. -/
theorem etcd_load_runtime_tls_failure_replaces_client_cex :
    load envTlsFail srvTlsConfig true stateWithClient =
      .ok (⟨"", some ⟨1, ⟨["10.0.0.1:2379"], none⟩⟩, [7]⟩,
        [Event.closeClient 100, Event.storeClient 1,
         Event.lockAcquire, Event.notifySync 7, Event.lockRelease])
    ∧ stateWithClient.client = some ⟨100, ⟨["old:2379"], none⟩⟩
    ∧ (⟨100, ⟨["old:2379"], none⟩⟩ : GoEtcdClient) ≠ ⟨1, ⟨["10.0.0.1:2379"], none⟩⟩ := by
  refine ⟨rfl, rfl, ?_⟩
  decide

/-- Helper: with `ignoreErrors = true`, endpoint resolution never fails. -/
theorem resolveEndpoints_ignore_isOk (compat : String) (config : ConfigFile)
    (env : LoadEnv) : ∃ l, resolveEndpoints compat config env true = .ok l := by
  simp only [resolveEndpoints]
  split
  · exact ⟨_, rfl⟩
  · split
    · split
      · simp
      · exact ⟨_, rfl⟩
    · exact ⟨_, rfl⟩

/-- Helper: with `ignoreErrors = true`, the TLS step never fails. -/
theorem buildTls_ignore_isOk (compat : String) (config : ConfigFile)
    (env : LoadEnv) : ∃ t, buildTls compat config env true = .ok t := by
  simp only [buildTls]
  split
  · split
    · simp
    · exact ⟨_, rfl⟩
  · exact ⟨_, rfl⟩

/-- Claim C3 (corrected): `load` with `ignoreErrors = false` returns every
SRV-discovery, TLS-configuration and client-creation error to its caller
(and `NewEtcdClient` propagates it), while `load` with
`ignoreErrors = true` always returns nil; on SRV-discovery and
client-creation failures the runtime reload leaves the installed client and
the client slot unchanged, but on a TLS-configuration failure the reload
proceeds with TLS disabled and may still create and install a new client. -/
theorem etcd_load_error_policy :
    (∀ (env : LoadEnv) (config : ConfigFile) (s : EtcdClientState),
      (load env config true s).isOk = true)
    ∧ (∀ (env : LoadEnv) (config : ConfigFile) (s : EtcdClientState) (e : String),
        getConfigStringWithFallback s.compatSection config "endpoints" = "" →
        getConfigStringWithFallback s.compatSection config "discoverysrv" ≠ "" →
        env.srvResult (getConfigStringWithFallback s.compatSection config "discoverysrv")
          (getConfigStringWithFallback s.compatSection config "discoveryservice") =
            .error e →
        load env config false s =
          .error ("Could not discover etcd endpoints for "
            ++ getConfigStringWithFallback s.compatSection config "discoverysrv"
            ++ ": " ++ e))
    ∧ (∀ (env : LoadEnv) (config : ConfigFile) (s : EtcdClientState)
        (endpoints : List String) (e : String),
        resolveEndpoints s.compatSection config env false = .ok endpoints →
        endpoints ≠ [] →
        getConfigStringWithFallback s.compatSection config "clientkey" ≠ "" →
        getConfigStringWithFallback s.compatSection config "clientcert" ≠ "" →
        getConfigStringWithFallback s.compatSection config "cacert" ≠ "" →
        env.tlsResult (getConfigStringWithFallback s.compatSection config "clientcert")
          (getConfigStringWithFallback s.compatSection config "clientkey")
          (getConfigStringWithFallback s.compatSection config "cacert") = .error e →
        load env config false s = .error ("Could not setup etcd TLS configuration: " ++ e))
    ∧ (∀ (env : LoadEnv) (config : ConfigFile) (s : EtcdClientState)
        (endpoints : List String) (tlsOpt : Option TLSConfig) (e : String),
        resolveEndpoints s.compatSection config env false = .ok endpoints →
        endpoints ≠ [] →
        buildTls s.compatSection config env false = .ok tlsOpt →
        env.newClient ⟨endpoints, tlsOpt⟩ = .error e →
        load env config false s = .error e)
    ∧ (∀ (env : LoadEnv) (config : ConfigFile) (compatSection e : String),
        load env config false ⟨compatSection, none, []⟩ = .error e →
        NewEtcdClient env config compatSection = .error e)
    ∧ (∀ (env : LoadEnv) (config : ConfigFile) (s : EtcdClientState) (e : String),
        getConfigStringWithFallback s.compatSection config "endpoints" = "" →
        getConfigStringWithFallback s.compatSection config "discoverysrv" ≠ "" →
        env.srvResult (getConfigStringWithFallback s.compatSection config "discoverysrv")
          (getConfigStringWithFallback s.compatSection config "discoveryservice") =
            .error e →
        load env config true s =
          .ok (s, [Event.log "No etcd endpoints configured, not changing client"]))
    ∧ (∀ (env : LoadEnv) (config : ConfigFile) (s : EtcdClientState)
        (endpoints : List String) (tlsOpt : Option TLSConfig) (e : String),
        resolveEndpoints s.compatSection config env true = .ok endpoints →
        endpoints ≠ [] →
        buildTls s.compatSection config env true = .ok tlsOpt →
        env.newClient ⟨endpoints, tlsOpt⟩ = .error e →
        load env config true s =
          .ok (s, [Event.log "Could not create new client from etcd endpoints"])) := by
  refine ⟨?_, ?_, ?_, ?_, ?_, ?_, ?_⟩
  · intro env config s
    obtain ⟨l, hl⟩ := resolveEndpoints_ignore_isOk s.compatSection config env
    obtain ⟨t, ht⟩ := buildTls_ignore_isOk s.compatSection config env
    simp only [load, hl]
    cases l with
    | nil => rfl
    | cons a as =>
      simp only [List.isEmpty_cons, Bool.false_eq_true, if_false, ht]
      cases env.newClient ⟨a :: as, t⟩ <;> rfl
  · intro env config s e h1 h2 h3
    simp [load, resolveEndpoints, h1, h2, h3]
  · intro env config s endpoints e hres hne hk hc ha htls
    simp only [load, hres]
    cases endpoints with
    | nil => exact absurd rfl hne
    | cons a as =>
      simp only [List.isEmpty_cons, Bool.false_eq_true, if_false]
      simp [buildTls, hk, hc, ha, htls]
  · intro env config s endpoints tlsOpt e hres hne hbt hnew
    simp only [load, hres]
    cases endpoints with
    | nil => exact absurd rfl hne
    | cons a as =>
      simp only [List.isEmpty_cons, Bool.false_eq_true, if_false, hbt, hnew]
      rfl
  · intro env config compatSection e h
    simpa [NewEtcdClient] using h
  · intro env config s e h1 h2 h3
    simp [load, resolveEndpoints, h1, h2, h3]
  · intro env config s endpoints tlsOpt e hres hne hbt hnew
    simp only [load, hres]
    cases endpoints with
    | nil => exact absurd rfl hne
    | cons a as =>
      simp only [List.isEmpty_cons, Bool.false_eq_true, if_false, hbt, hnew]
      rfl

/-- Witness for `etcd_load_error_policy`: the failing discovery, TLS build
and client creation each propagate at initial construction, runtime reloads
always return nil, and SRV/client-creation failures at runtime leave the
installed client untouched. -/
theorem etcd_load_error_policy_witness :
    load envSrvFail srvConfig false stateEmpty =
      .error "Could not discover etcd endpoints for etcd.example.com: srv down"
    ∧ load envTlsFail srvTlsConfig false stateEmpty =
        .error "Could not setup etcd TLS configuration: bad tls"
    ∧ load envNewFail srvConfig false stateEmpty = .error "dial failed"
    ∧ NewEtcdClient envSrvFail srvConfig "" =
        .error "Could not discover etcd endpoints for etcd.example.com: srv down"
    ∧ (load envSrvFail srvConfig true stateWithClient).isOk = true
    ∧ load envSrvFail srvConfig true stateWithClient =
        .ok (stateWithClient, [Event.log "No etcd endpoints configured, not changing client"])
    ∧ load envNewFail srvConfig true stateWithClient =
        .ok (stateWithClient, [Event.log "Could not create new client from etcd endpoints"]) := by
  obtain ⟨hok, hsrv, htls, hnew, hctor, hsrvrt, hnewrt⟩ := etcd_load_error_policy
  refine ⟨?_, ?_, ?_, ?_, ?_, ?_, ?_⟩
  · exact hsrv envSrvFail srvConfig stateEmpty "srv down" (by decide) (by decide) (by decide)
  · exact htls envTlsFail srvTlsConfig stateEmpty ["10.0.0.1:2379"] "bad tls"
      (by decide) (by decide) (by decide) (by decide) (by decide) (by decide)
  · exact hnew envNewFail srvConfig stateEmpty ["10.0.0.1:2379"] none "dial failed"
      (by decide) (by decide) (by decide) (by decide)
  · exact hctor envSrvFail srvConfig ""
      "Could not discover etcd endpoints for etcd.example.com: srv down"
      (hsrv envSrvFail srvConfig ⟨"", none, []⟩ "srv down" (by decide) (by decide) (by decide))
  · exact hok envSrvFail srvConfig stateWithClient
  · exact hsrvrt envSrvFail srvConfig stateWithClient "srv down"
      (by decide) (by decide) (by decide)
  · exact hnewrt envNewFail srvConfig stateWithClient ["10.0.0.1:2379"] none "dial failed"
      (by decide) (by decide) (by decide) (by decide)

/-- Helper: a successful `buildTls` yields a TLS configuration exactly when
all three TLS options are non-empty and the TLS build parses. -/
theorem buildTls_isSome_iff (compat : String) (config : ConfigFile) (env : LoadEnv)
    (ignoreErrors : Bool) (tlsOpt : Option TLSConfig)
    (h : buildTls compat config env ignoreErrors = .ok tlsOpt) :
    tlsOpt.isSome = true ↔
      (getConfigStringWithFallback compat config "clientkey" ≠ ""
        ∧ getConfigStringWithFallback compat config "clientcert" ≠ ""
        ∧ getConfigStringWithFallback compat config "cacert" ≠ ""
        ∧ (env.tlsResult (getConfigStringWithFallback compat config "clientcert")
            (getConfigStringWithFallback compat config "clientkey")
            (getConfigStringWithFallback compat config "cacert")).isOk = true) := by
  simp only [buildTls] at h
  by_cases htriple : getConfigStringWithFallback compat config "clientkey" ≠ ""
      ∧ getConfigStringWithFallback compat config "clientcert" ≠ ""
      ∧ getConfigStringWithFallback compat config "cacert" ≠ ""
  · rw [if_pos htriple] at h
    cases htls : env.tlsResult (getConfigStringWithFallback compat config "clientcert")
        (getConfigStringWithFallback compat config "clientkey")
        (getConfigStringWithFallback compat config "cacert") with
    | error e =>
      rw [htls] at h
      cases ignoreErrors with
      | false => simp at h
      | true =>
        simp at h
        simp [← h, htls, Except.isOk, Except.toBool]
    | ok t =>
      rw [htls] at h
      simp at h
      simp [← h, htriple, htls, Except.isOk, Except.toBool]
  · rw [if_neg htriple] at h
    simp at h
    simp [← h]
    intro hk hc ha
    exact absurd ⟨hk, hc, ha⟩ htriple

/-- Claim C6: whenever `load` installs a client (the trace stores it), that
client has TLS enabled iff `clientkey`, `clientcert` and `cacert` are all
non-empty and the TLS configuration built from them parses successfully. -/
theorem etcd_load_tls_iff (env : LoadEnv) (config : ConfigFile) (ignoreErrors : Bool)
    (s s' : EtcdClientState) (tr : List Event) (cl : GoEtcdClient)
    (h : load env config ignoreErrors s = .ok (s', tr))
    (hcl : s'.client = some cl) (hst : Event.storeClient cl.id ∈ tr) :
    cl.cfg.tls.isSome = true ↔
      (getConfigStringWithFallback s.compatSection config "clientkey" ≠ ""
        ∧ getConfigStringWithFallback s.compatSection config "clientcert" ≠ ""
        ∧ getConfigStringWithFallback s.compatSection config "cacert" ≠ ""
        ∧ (env.tlsResult (getConfigStringWithFallback s.compatSection config "clientcert")
            (getConfigStringWithFallback s.compatSection config "clientkey")
            (getConfigStringWithFallback s.compatSection config "cacert")).isOk = true) := by
  simp only [load] at h
  split at h
  · cases h
  · rename_i endpoints hres
    split at h
    · cases h
      split at hst <;> simp at hst
    · split at h
      · cases h
      · rename_i tlsOpt hbt
        split at h
        · split at h
          · cases h
          · cases h
            simp at hst
        · rename_i id hnew
          injection h with h'
          injection h' with hs htr
          subst hs htr
          have hc := Option.some.inj hcl
          subst hc
          exact buildTls_isSome_iff s.compatSection config env ignoreErrors tlsOpt hbt

/-- Witness for `etcd_load_tls_iff`: initial construction with SRV-resolved
endpoints and a valid TLS triple installs a TLS-enabled client. -/
theorem etcd_load_tls_iff_witness :
    (⟨2, ⟨["10.0.0.1:2379"], some ⟨0⟩⟩⟩ : GoEtcdClient).cfg.tls.isSome = true := by
  have h := etcd_load_tls_iff envOk srvTlsConfig false stateEmpty
    ⟨"", some ⟨2, ⟨["10.0.0.1:2379"], some ⟨0⟩⟩⟩, []⟩
    [Event.storeClient 2, Event.lockAcquire, Event.lockRelease]
    ⟨2, ⟨["10.0.0.1:2379"], some ⟨0⟩⟩⟩ (by decide) (by decide) (by decide)
  exact h.mpr ⟨by decide, by decide, by decide, by decide⟩

/-- Claim C7: `AddListener` with a client already installed dispatches
exactly one `EtcdClientCreated` notification to the new listener, on a
separate execution context (the `go` statement, recorded as an asynchronous
dispatch event, so the caller never blocks on the listener); with no client
installed it dispatches nothing. -/
theorem etcd_add_listener_notify (s : EtcdClientState) (l : Nat) :
    ((getEtcdClient s).isSome = true →
      (AddListener s l).2 = [Event.lockAcquire, Event.notifyAsync l, Event.lockRelease])
    ∧ (getEtcdClient s = none →
      (AddListener s l).2 = [Event.lockAcquire, Event.lockRelease]) := by
  constructor
  · intro h
    simp [AddListener, h]
  · intro h
    simp [AddListener, h]

/-- Witness for `etcd_add_listener_notify`: a late listener joining
`stateWithClient` gets one asynchronous notification; a listener joining
`stateEmpty` gets none. -/
theorem etcd_add_listener_notify_witness :
    (AddListener stateWithClient 9).2 =
      [Event.lockAcquire, Event.notifyAsync 9, Event.lockRelease]
    ∧ (AddListener stateEmpty 9).2 = [Event.lockAcquire, Event.lockRelease] :=
  ⟨(etcd_add_listener_notify stateWithClient 9).1 (by decide),
   (etcd_add_listener_notify stateEmpty 9).2 (by decide)⟩

/-- Claim C8 as stated is false: `notifyListeners` delivers the
`EtcdClientCreated` notifications *while holding* the listener-set lock,
synchronously (no asynchronous dispatch event appears in its trace), as the
concrete one-listener trace shows. -/
theorem etcd_notify_listeners_under_lock_cex :
    notifyListeners stateWithClient =
      [Event.lockAcquire, Event.notifySync 7, Event.lockRelease]
    ∧ notifiesUnderLock (notifyListeners stateWithClient) 0 = true
    ∧ Event.notifyAsync 7 ∉ notifyListeners stateWithClient := by
  refine ⟨rfl, rfl, ?_⟩
  decide

/-- Claim C8 (corrected): when a client is (re)created, each listener
registered at the time of the event receives exactly one
`EtcdClientCreated` invocation, but the notifications are delivered
synchronously and sequentially while the listener-set lock is held, so a
slow listener does block the other listeners and the caller of `load`. -/
theorem etcd_notify_listeners_sync_under_lock (s : EtcdClientState)
    (hnd : s.listeners.Nodup) (l : Nat) (hl : l ∈ s.listeners) :
    (notifyListeners s).count (Event.notifySync l) = 1
    ∧ notifiesUnderLock (notifyListeners s) 0 = true
    ∧ (∀ l', Event.notifyAsync l' ∉ notifyListeners s) := by
  refine ⟨?_, ?_, ?_⟩
  · have hinj : Function.Injective Event.notifySync := by
      intro a b h
      cases h
      rfl
    simp only [notifyListeners, List.count_append, List.count_cons, List.count_nil]
    rw [List.count_map_of_injective _ _ hinj]
    rw [List.count_eq_one_of_mem hnd hl]
    simp
  · simp only [notifyListeners]
    cases hx : s.listeners with
    | nil => rw [hx] at hl; cases hl
    | cons a as => simp [notifiesUnderLock]
  · intro l'
    simp [notifyListeners]

/-- Witness for `etcd_notify_listeners_sync_under_lock` on the concrete
one-listener state. -/
theorem etcd_notify_listeners_sync_under_lock_witness :
    (notifyListeners stateWithClient).count (Event.notifySync 7) = 1
    ∧ notifiesUnderLock (notifyListeners stateWithClient) 0 = true
    ∧ (∀ l', Event.notifyAsync l' ∉ notifyListeners stateWithClient) :=
  etcd_notify_listeners_sync_under_lock stateWithClient (by decide) 7 (by decide)

/-- Claim C9: `WaitForCertificateReload` fails with the not-configured
error when no certificate loader is attached and otherwise delegates to the
loader's `WaitForReload` with the caller-supplied context;
`WaitForCertPoolReload` is the pool analogue. -/
theorem credentials_wait_not_configured (c : ReloadableCredentials) (ctx : Ctx) :
    (c.loader = none → WaitForCertificateReload c ctx = .error "no certificate loaded")
    ∧ (∀ ld, c.loader = some ld →
        WaitForCertificateReload c ctx = ld.waitForReload ctx)
    ∧ (c.pool = none → WaitForCertPoolReload c ctx = .error "no certificate pool loaded")
    ∧ (∀ p, c.pool = some p → WaitForCertPoolReload c ctx = p.waitForReload ctx) := by
  refine ⟨?_, ?_, ?_, ?_⟩
  · intro h
    simp [WaitForCertificateReload, h]
  · intro ld h
    simp [WaitForCertificateReload, h]
  · intro h
    simp [WaitForCertPoolReload, h]
  · intro p h
    simp [WaitForCertPoolReload, h]

/-- Witness for `credentials_wait_not_configured`: with nothing attached
both waits fail with the not-configured errors; with loaders attached both
delegate. -/
theorem credentials_wait_not_configured_witness :
    WaitForCertificateReload ⟨none, none⟩ 0 = .error "no certificate loaded"
    ∧ WaitForCertPoolReload ⟨none, none⟩ 0 = .error "no certificate pool loaded"
    ∧ WaitForCertificateReload ⟨some ⟨fun _ => .ok ()⟩, none⟩ 0 = .ok ()
    ∧ WaitForCertPoolReload ⟨none, some ⟨fun _ => .error "ctx canceled"⟩⟩ 0 =
        .error "ctx canceled" :=
  ⟨(credentials_wait_not_configured ⟨none, none⟩ 0).1 rfl,
   (credentials_wait_not_configured ⟨none, none⟩ 0).2.2.1 rfl,
   (credentials_wait_not_configured ⟨some ⟨fun _ => .ok ()⟩, none⟩ 0).2.1 _ rfl,
   (credentials_wait_not_configured ⟨none, some ⟨fun _ => .error "ctx canceled"⟩⟩ 0).2.2.2 _ rfl⟩

/-- Claim C10: with no client ever installed, `Get`, `Watch`, `syncClient`
and `WaitForConnection` all dereference the nil client handle, while
`IsConfigured` reports false and `Close` safely returns nil. -/
theorem etcd_nil_client_safety (s : EtcdClientState) (h : s.client = none)
    (resp : Except String (List (String × String)))
    (closeResult syncResult : Except String Unit) (key : String)
    (responses : List WatchResponse) (initialWaitDelay maxWaitDelay : Nat)
    (outcomes : List (Except String Unit)) :
    IsConfigured s = false
    ∧ Get s resp = .nilDeref
    ∧ Watch s key responses = .nilDeref
    ∧ syncClient s syncResult = .nilDeref
    ∧ WaitForConnection initialWaitDelay maxWaitDelay s outcomes = .nilDeref
    ∧ Close s closeResult = .ok () := by
  refine ⟨?_, ?_, ?_, ?_, ?_, ?_⟩ <;>
    simp [IsConfigured, Get, clientGet, Watch, syncClient, WaitForConnection,
      Close, getEtcdClient, h]

/-- Witness for `etcd_nil_client_safety` on the freshly constructed state. -/
theorem etcd_nil_client_safety_witness :
    IsConfigured stateEmpty = false
    ∧ Get stateEmpty (.ok []) = .nilDeref
    ∧ Watch stateEmpty "key" [] = .nilDeref
    ∧ syncClient stateEmpty (.ok ()) = .nilDeref
    ∧ WaitForConnection 1 8 stateEmpty [.ok ()] = .nilDeref
    ∧ Close stateEmpty (.ok ()) = .ok () :=
  etcd_nil_client_safety stateEmpty rfl (.ok []) (.ok ()) (.ok ()) "key" [] 1 8 [.ok ()]

end Signaling
